import Mathlib

/-!
Verification development for the SearchBard conference-search aggregation
pipeline (`conference-search/src/services/ConferenceSearchService.ts` and the
provider adapters `SerpApiService.ts`, `TicketmasterApiService.ts`).

The TypeScript code is shallowly embedded:
* JavaScript strings are Lean `String`s; the JS string methods used by the
  code (`toLowerCase`, `trim`, `split(',')`, `includes`, `replace(/\s+/g,' ')`)
  are implemented below on the underlying character lists.
* JS `number` fields holding dates never occur; dates are the ISO
  `YYYY-MM-DD` strings of the data model.  The code compares dates by
  `new Date(s)` values; for ISO `YYYY-MM-DD` strings that order coincides
  with lexicographic string order, which is how it is modelled (`leStr`).
* Optional JS fields become `Option`; JS truthiness of a string is
  non-emptiness, of a number it is being nonzero, of an absent field `none`.
* Geographic coordinates are rationals (all coordinates occurring in the
  data are decimal literals); the Haversine distance `calculateDistance` is
  a real-valued function of real arguments.
* `Array.prototype.sort` with comparator
  `(a, b) => new Date(a.startDate).getTime() - new Date(b.startDate).getTime()`
  is a stable sort by `startDate`; it is modelled by `List.insertionSort`,
  which is stable and sorts by the same key.
-/

namespace SearchBard

/-! ### JS string primitives on character lists -/

/-- ASCII lower-casing of one character, as performed by `toLowerCase` on the
ASCII strings this code base manipulates. -/
def lowerChar (c : Char) : Char :=
  if 65 ≤ c.toNat ∧ c.toNat ≤ 90 then Char.ofNat (c.toNat + 32) else c

/-- `s.toLowerCase()`. -/
def lowerStr (s : String) : String :=
  ⟨s.data.map lowerChar⟩

/-- Whitespace test used by JS `trim` and `\s`, restricted to the ASCII
whitespace that can occur here. -/
def isWs (c : Char) : Bool :=
  c = ' ' ∨ c = '\t' ∨ c = '\n' ∨ c = '\r'

/-- Remove leading and trailing whitespace from a character list. -/
def trimChars (l : List Char) : List Char :=
  ((l.dropWhile isWs).reverse.dropWhile isWs).reverse

/-- `s.trim()`. -/
def trimStr (s : String) : String :=
  ⟨trimChars s.data⟩

/-- Worker for `collapseWs`; `inRun` records whether the previous character
was whitespace (in which case further whitespace is dropped rather than
emitting another space). -/
def collapseWsAux : Bool → List Char → List Char
  | _, [] => []
  | inRun, c :: cs =>
    if isWs c then
      if inRun then collapseWsAux true cs else ' ' :: collapseWsAux true cs
    else c :: collapseWsAux false cs

/-- `replace(/\s+/g, ' ')`: collapse every maximal run of whitespace into a
single space. -/
def collapseWs (l : List Char) : List Char :=
  collapseWsAux false l

/-- The characters of `s.split(',')[0]`: everything before the first comma. -/
def beforeComma (l : List Char) : List Char :=
  l.takeWhile (fun c => c ≠ ',')

/-- `hay.includes(needle)` on character lists. -/
def isSubChars (needle : List Char) : List Char → Bool
  | [] => needle.isEmpty
  | h :: t => needle.isPrefixOf (h :: t) || isSubChars needle t

/-- JS `hay.includes(needle)`. -/
def strIncludes (hay needle : String) : Bool :=
  isSubChars needle.data hay.data

/-- Lexicographic comparison of character lists by code point; for ISO
`YYYY-MM-DD` date strings this coincides with the chronological order that
the code computes through `new Date(...)`. -/
def leChars : List Char → List Char → Bool
  | [], _ => true
  | _ :: _, [] => false
  | a :: as, b :: bs =>
    if a.toNat < b.toNat then true
    else if b.toNat < a.toNat then false
    else leChars as bs

/-- Date comparison `new Date(a) <= new Date(b)` on ISO date strings. -/
def leStr (a b : String) : Bool :=
  leChars a.data b.data

theorem leChars_total : ∀ a b, leChars a b = true ∨ leChars b a = true
  | [], _ => Or.inl rfl
  | _ :: _, [] => Or.inr rfl
  | a :: as, b :: bs => by
    by_cases hab : a.toNat < b.toNat
    · exact Or.inl (by simp [leChars, hab])
    · by_cases hba : b.toNat < a.toNat
      · exact Or.inr (by simp [leChars, hba])
      · rcases leChars_total as bs with h | h
        · exact Or.inl (by simp [leChars, hab, hba, h])
        · exact Or.inr (by simp [leChars, hab, hba, h])

theorem leChars_trans : ∀ a b c, leChars a b = true → leChars b c = true →
    leChars a c = true
  | [], _, _, _, _ => rfl
  | _ :: _, [], _, h, _ => by simp [leChars] at h
  | _ :: _, _ :: _, [], _, h => by simp [leChars] at h
  | a :: as, b :: bs, c :: cs, h₁, h₂ => by
    simp only [leChars] at h₁ h₂ ⊢
    split at h₁
    · rename_i hab
      split at h₂
      · rename_i hbc
        simp [Nat.lt_trans hab hbc]
      · split at h₂
        · exact absurd h₂ (by simp)
        · rename_i hcb hbc
          have hbc' : b.toNat = c.toNat := Nat.le_antisymm (Nat.le_of_not_lt hbc) (Nat.le_of_not_lt hcb)
          simp [hbc' ▸ hab]
    · split at h₁
      · exact absurd h₁ (by simp)
      · rename_i hba hab
        have hab' : a.toNat = b.toNat := Nat.le_antisymm (Nat.le_of_not_lt hab) (Nat.le_of_not_lt hba)
        split at h₂
        · rename_i hbc
          simp [hab' ▸ hbc]
        · split at h₂
          · exact absurd h₂ (by simp)
          · rename_i hcb hbc
            have hbc' : b.toNat = c.toNat := Nat.le_antisymm (Nat.le_of_not_lt hbc) (Nat.le_of_not_lt hcb)
            have : ¬ a.toNat < c.toNat := by omega
            have : ¬ c.toNat < a.toNat := by omega
            simp_all [leChars_trans as bs cs h₁ h₂]

theorem leStr_total (a b : String) : leStr a b = true ∨ leStr b a = true :=
  leChars_total a.data b.data

theorem leStr_trans {a b c : String} (h₁ : leStr a b = true) (h₂ : leStr b c = true) :
    leStr a c = true :=
  leChars_trans a.data b.data c.data h₁ h₂

/-! ### Data model (`types/Conference.ts`) -/

/-- Latitude/longitude pair (`coordinates` in `Conference.location`). -/
structure Coordinates where
  lat : ℚ
  lng : ℚ
  deriving DecidableEq, Repr

/-- The `location` field of a `Conference`. -/
structure LocationInfo where
  city : String
  state : String
  country : String
  coordinates : Option Coordinates
  deriving DecidableEq, Repr

/-- The optional `price` field of a `Conference`. -/
structure PriceInfo where
  min : ℚ
  max : ℚ
  currency : String
  deriving DecidableEq, Repr

/-- The canonical `Conference` record. -/
structure Conference where
  id : String
  title : String
  subject : String
  location : LocationInfo
  startDate : String
  endDate : String
  description : String
  website : Option String
  organizer : String
  attendeeCount : Option Nat
  price : Option PriceInfo
  deriving DecidableEq, Repr

/-- The `SearchFilters` user input.  `radius?: number` becomes an
`Option ℚ`. -/
structure SearchFilters where
  subjects : List String
  location : String
  startDate : String
  endDate : String
  radius : Option ℚ
  deriving DecidableEq, Repr

/-- The fixed category list `TOP_SUBJECTS` (11 entries). -/
def TOP_SUBJECTS : List String :=
  ["Technology", "Healthcare", "Business", "Education", "Science",
   "Marketing", "Finance", "Environment", "Arts & Design", "Engineering",
   "Sports"]

/-! ### Fallback dataset (`data/mockConferences.ts`) -/

/-- The built-in fallback dataset `mockConferences` (12 records). -/
def mockConferences : List Conference :=
  [{ id := "1", title := "TechCrunch Disrupt 2024", subject := "Technology",
     location := { city := "San Francisco", state := "CA", country := "USA",
                   coordinates := some ⟨37.7749, -122.4194⟩ },
     startDate := "2024-09-15", endDate := "2024-09-17",
     description := "The premier technology conference featuring startup pitches, investor discussions, and the latest in tech innovation.",
     website := some "https://techcrunch.com/events/disrupt-2024/",
     organizer := "TechCrunch", attendeeCount := some 10000,
     price := some ⟨2500, 5000, "USD"⟩ },
   { id := "2", title := "World Healthcare Innovation Summit", subject := "Healthcare",
     location := { city := "Boston", state := "MA", country := "USA",
                   coordinates := some ⟨42.3601, -71.0589⟩ },
     startDate := "2024-10-22", endDate := "2024-10-24",
     description := "Leading healthcare professionals discuss breakthrough innovations in medical technology and patient care.",
     website := none,
     organizer := "Healthcare Innovation Institute", attendeeCount := some 5000,
     price := some ⟨1800, 3500, "USD"⟩ },
   { id := "3", title := "Global Business Leaders Forum", subject := "Business",
     location := { city := "New York", state := "NY", country := "USA",
                   coordinates := some ⟨40.7128, -74.0060⟩ },
     startDate := "2024-11-05", endDate := "2024-11-07",
     description := "CEOs and business leaders share insights on global markets, strategy, and leadership.",
     website := none,
     organizer := "Business Leadership Council", attendeeCount := some 3000,
     price := some ⟨2000, 4000, "USD"⟩ },
   { id := "4", title := "International Education Technology Conference", subject := "Education",
     location := { city := "Austin", state := "TX", country := "USA",
                   coordinates := some ⟨30.2672, -97.7431⟩ },
     startDate := "2024-09-28", endDate := "2024-09-30",
     description := "Educators and technologists explore the future of learning through innovative educational technologies.",
     website := none,
     organizer := "EdTech Alliance", attendeeCount := some 4000,
     price := some ⟨1200, 2500, "USD"⟩ },
   { id := "5", title := "National Science Foundation Symposium", subject := "Science",
     location := { city := "Washington", state := "DC", country := "USA",
                   coordinates := some ⟨38.9072, -77.0369⟩ },
     startDate := "2024-10-15", endDate := "2024-10-17",
     description := "Scientists present cutting-edge research across multiple disciplines including physics, biology, and chemistry.",
     website := none,
     organizer := "National Science Foundation", attendeeCount := some 2500,
     price := some ⟨800, 1500, "USD"⟩ },
   { id := "6", title := "Digital Marketing Expo", subject := "Marketing",
     location := { city := "Las Vegas", state := "NV", country := "USA",
                   coordinates := some ⟨36.1699, -115.1398⟩ },
     startDate := "2024-11-12", endDate := "2024-11-14",
     description := "Marketing professionals learn about the latest digital marketing trends, tools, and strategies.",
     website := none,
     organizer := "Digital Marketing Association", attendeeCount := some 6000,
     price := some ⟨1500, 3000, "USD"⟩ },
   { id := "7", title := "Financial Technology Summit", subject := "Finance",
     location := { city := "Chicago", state := "IL", country := "USA",
                   coordinates := some ⟨41.8781, -87.6298⟩ },
     startDate := "2024-10-08", endDate := "2024-10-10",
     description := "FinTech innovators and financial institutions discuss the future of banking and financial services.",
     website := none,
     organizer := "FinTech Coalition", attendeeCount := some 3500,
     price := some ⟨2200, 4500, "USD"⟩ },
   { id := "8", title := "Climate Action Conference", subject := "Environment",
     location := { city := "Seattle", state := "WA", country := "USA",
                   coordinates := some ⟨47.6062, -122.3321⟩ },
     startDate := "2024-09-20", endDate := "2024-09-22",
     description := "Environmental scientists and activists collaborate on solutions for climate change and sustainability.",
     website := none,
     organizer := "Green Future Initiative", attendeeCount := some 4500,
     price := some ⟨1000, 2000, "USD"⟩ },
   { id := "9", title := "Design Thinking Workshop", subject := "Arts & Design",
     location := { city := "Los Angeles", state := "CA", country := "USA",
                   coordinates := some ⟨34.0522, -118.2437⟩ },
     startDate := "2024-11-20", endDate := "2024-11-22",
     description := "Designers and creative professionals explore innovative design methodologies and artistic expression.",
     website := none,
     organizer := "Creative Arts Foundation", attendeeCount := some 2000,
     price := some ⟨1300, 2600, "USD"⟩ },
   { id := "10", title := "International Engineering Symposium", subject := "Engineering",
     location := { city := "Denver", state := "CO", country := "USA",
                   coordinates := some ⟨39.7392, -104.9903⟩ },
     startDate := "2024-10-30", endDate := "2024-11-01",
     description := "Engineers from various disciplines share innovations in infrastructure, robotics, and sustainable engineering.",
     website := none,
     organizer := "International Engineering Society", attendeeCount := some 5500,
     price := some ⟨1600, 3200, "USD"⟩ },
   { id := "11", title := "AI & Machine Learning Conference", subject := "Technology",
     location := { city := "San Jose", state := "CA", country := "USA",
                   coordinates := some ⟨37.3382, -121.8863⟩ },
     startDate := "2024-12-03", endDate := "2024-12-05",
     description := "Artificial intelligence researchers and practitioners discuss the latest developments in ML and AI.",
     website := none,
     organizer := "AI Research Institute", attendeeCount := some 8000,
     price := some ⟨2800, 5500, "USD"⟩ },
   { id := "12", title := "Telemedicine Innovation Forum", subject := "Healthcare",
     location := { city := "Atlanta", state := "GA", country := "USA",
                   coordinates := some ⟨33.7490, -84.3880⟩ },
     startDate := "2024-11-28", endDate := "2024-11-29",
     description := "Healthcare providers explore remote care technologies and digital health solutions.",
     website := none,
     organizer := "Telemedicine Association", attendeeCount := some 3200,
     price := some ⟨1400, 2800, "USD"⟩ }]

/-! ### Geocoding (`getCityCoordinates`, `ConferenceSearchService.ts` 38-70) -/

/-- The static city/coordinate lookup table `cityCoords`. -/
def cityCoords : List (String × Coordinates) :=
  [("san francisco", ⟨37.7749, -122.4194⟩),
   ("new york", ⟨40.7128, -74.0060⟩),
   ("los angeles", ⟨34.0522, -118.2437⟩),
   ("chicago", ⟨41.8781, -87.6298⟩),
   ("boston", ⟨42.3601, -71.0589⟩),
   ("seattle", ⟨47.6062, -122.3321⟩),
   ("denver", ⟨39.7392, -104.9903⟩),
   ("austin", ⟨30.2672, -97.7431⟩),
   ("atlanta", ⟨33.7490, -84.3880⟩),
   ("washington", ⟨38.9072, -77.0369⟩),
   ("las vegas", ⟨36.1699, -115.1398⟩),
   ("san jose", ⟨37.3382, -121.8863⟩),
   ("orlando", ⟨28.5383, -81.3792⟩),
   ("dallas", ⟨32.7767, -96.7970⟩),
   ("houston", ⟨29.7604, -95.3698⟩),
   ("phoenix", ⟨33.4484, -112.0740⟩),
   ("san diego", ⟨32.7157, -117.1611⟩),
   ("miami", ⟨25.7617, -80.1918⟩),
   ("philadelphia", ⟨39.9526, -75.1652⟩),
   ("nashville", ⟨36.1627, -86.7816⟩),
   ("portland", ⟨45.5152, -122.6784⟩)]

/-- `getCityCoordinates`: look up `city.toLowerCase().split(',')[0].trim()`
in the static table, `null` (= `none`) when absent. -/
def getCityCoordinates (city : String) : Option Coordinates :=
  cityCoords.lookup ⟨trimChars (beforeComma (lowerStr city).data)⟩

/-! ### Haversine distance (`calculateDistance`, lines 87-109) -/

/-- `Math.atan2 y x`, the two-argument arctangent. -/
noncomputable def atan2 (y x : ℝ) : ℝ :=
  open scoped Classical in
  if 0 < x then Real.arctan (y / x)
  else if x < 0 ∧ 0 ≤ y then Real.arctan (y / x) + Real.pi
  else if x < 0 ∧ y < 0 then Real.arctan (y / x) - Real.pi
  else if x = 0 ∧ 0 < y then Real.pi / 2
  else if x = 0 ∧ y < 0 then -(Real.pi / 2)
  else 0

/-- Great-circle distance in miles by the Haversine formula, Earth radius
3959 miles; direct transcription of `calculateDistance`. -/
noncomputable def calculateDistance (lat1 lng1 lat2 lng2 : ℝ) : ℝ :=
  3959 * (2 * atan2
    (Real.sqrt (Real.sin ((lat2 - lat1) * (Real.pi / 180) / 2) *
                  Real.sin ((lat2 - lat1) * (Real.pi / 180) / 2) +
                Real.cos (lat1 * (Real.pi / 180)) * Real.cos (lat2 * (Real.pi / 180)) *
                  Real.sin ((lng2 - lng1) * (Real.pi / 180) / 2) *
                  Real.sin ((lng2 - lng1) * (Real.pi / 180) / 2)))
    (Real.sqrt (1 - (Real.sin ((lat2 - lat1) * (Real.pi / 180) / 2) *
                  Real.sin ((lat2 - lat1) * (Real.pi / 180) / 2) +
                Real.cos (lat1 * (Real.pi / 180)) * Real.cos (lat2 * (Real.pi / 180)) *
                  Real.sin ((lng2 - lng1) * (Real.pi / 180) / 2) *
                  Real.sin ((lng2 - lng1) * (Real.pi / 180) / 2)))))

/-- The radius test `calculateDistance(...) <= radius` performed by the
geographic filters. -/
noncomputable def distLE (sc cc : Coordinates) (radius : ℚ) : Bool :=
  open scoped Classical in
  decide (calculateDistance sc.lat sc.lng cc.lat cc.lng ≤ (radius : ℝ))

/-! ### Completeness score and deduplication (lines 327-402) -/

/-- `calculateCompletenessScore` (lines 376-402): sum of independent
contributions; JS truthiness of strings/numbers is made explicit. -/
def calculateCompletenessScore (c : Conference) : Nat :=
  (if c.location.coordinates.isSome then 2 else 0) +
  (if ¬c.description.isEmpty ∧ 50 < c.description.data.length then 2 else 0) +
  (if c.price.isSome then 1 else 0) +
  (match c.attendeeCount with
   | some n => if n ≠ 0 then 1 else 0
   | none => 0) +
  (match c.website with
   | some w => if ¬w.isEmpty ∧ w ≠ "#" then 1 else 0
   | none => 0) +
  (if ¬c.organizer.isEmpty ∧ c.organizer ≠ "Event Organizer" ∧
      c.organizer ≠ "Ticketmaster Event" then 1 else 0)

/-- The deduplication key: normalized title `|` raw start date (line 333-334). -/
def dedupKey (c : Conference) : String :=
  ⟨collapseWs (trimChars (lowerStr c.title).data)⟩ ++ "|" ++ c.startDate

/-- `seen.get(key)` on the insertion-ordered association list modelling the
JS `Map`. -/
def findVal (key : String) : List (String × Conference) → Option Conference
  | [] => none
  | (k, v) :: rest => if k = key then some v else findVal key rest

/-- `seen.set(key, v)` for a key already present: replace the value in
place, keeping the original insertion position. -/
def setVal (key : String) (v : Conference) :
    List (String × Conference) → List (String × Conference)
  | [] => []
  | (k, w) :: rest =>
    if k = key then (k, v) :: rest else (k, w) :: setVal key v rest

/-- One iteration of the `for (const conference of conferences)` loop in
`deduplicateConferences` (lines 330-352). -/
def dedupStep (seen : List (String × Conference)) (c : Conference) :
    List (String × Conference) :=
  match findVal (dedupKey c) seen with
  | none => seen ++ [(dedupKey c, c)]
  | some existing =>
    if calculateCompletenessScore existing < calculateCompletenessScore c then
      setVal (dedupKey c) c seen
    else seen

/-- `deduplicateConferences` (lines 327-355): fold the loop body over the
input, then `Array.from(seen.values())`. -/
def deduplicateConferences (conferences : List Conference) : List Conference :=
  (conferences.foldl dedupStep []).map (·.2)

/-! ### Final ordering -/

/-- The comparator order used by
`results.sort((a, b) => new Date(a.startDate).getTime() - new Date(b.startDate).getTime())`. -/
def byStartDate (a b : Conference) : Prop :=
  leStr a.startDate b.startDate = true

instance : DecidableRel byStartDate := fun _ _ =>
  inferInstanceAs (Decidable (_ = true))

instance : IsTotal Conference byStartDate :=
  ⟨fun a b => leStr_total a.startDate b.startDate⟩

instance : IsTrans Conference byStartDate :=
  ⟨fun _ _ _ => leStr_trans⟩

/-- The stable sort by `startDate` performed at both pipeline exits.
`Array.prototype.sort` is stable; the unique stable sort by a total
preorder is realized by `List.insertionSort`. -/
def sortByStartDate (l : List Conference) : List Conference :=
  l.insertionSort byStartDate

/-! ### Pipeline (`ConferenceSearchService.searchConferences`, lines 130-306) -/

/-- JS truthiness of `filters.radius` (`undefined` and `0` are falsy). -/
def truthyRadius : Option ℚ → Bool
  | none => false
  | some r => r != 0

/-- FILTER 1 of the live-provider branch (lines 184-190): filter by subject
only when the user selected some but not all 11 subjects. -/
def subjectFilterLive (filters : SearchFilters) (results : List Conference) :
    List Conference :=
  if 0 < filters.subjects.length ∧ filters.subjects.length < 11 then
    results.filter (fun conference => filters.subjects.contains conference.subject)
  else results

/-- Text-matching tier of the live-path geographic filter for records
without coordinates (lines 204-208):
`searchLower.includes(confCity) || confCity.includes(searchLower.split(',')[0].trim())`. -/
def textMatchLive (filters : SearchFilters) (conference : Conference) : Bool :=
  strIncludes (lowerStr filters.location) (lowerStr conference.location.city) ||
    strIncludes (lowerStr conference.location.city)
      ⟨trimChars (beforeComma (lowerStr filters.location).data)⟩

/-- FILTER 2 of the live-provider branch (lines 194-231), with `r` the value
the source reads as `filters.radius!` under the truthiness guard.  Two-tier:
Haversine distance for records with coordinates, text matching otherwise;
pure bidirectional text matching when the search city fails to geocode. -/
noncomputable def geoFilterLive (filters : SearchFilters) (r : ℚ)
    (results : List Conference) : List Conference :=
  match getCityCoordinates filters.location with
  | some searchCoords =>
    results.filter (fun conference =>
      match conference.location.coordinates with
      | none => textMatchLive filters conference
      | some cc => distLE searchCoords cc r)
  | none =>
    results.filter (fun conference =>
      strIncludes (lowerStr conference.location.city)
        (lowerStr ⟨trimChars (beforeComma filters.location.data)⟩) ||
      strIncludes (lowerStr ⟨trimChars (beforeComma filters.location.data)⟩)
        (lowerStr conference.location.city))

/-- The filter stages of the live-provider branch (lines 182-232), applied
to the deduplicated aggregate. -/
noncomputable def liveStageFilters (filters : SearchFilters)
    (results : List Conference) : List Conference :=
  let afterSubjects := subjectFilterLive filters results
  if ¬filters.location.isEmpty ∧ truthyRadius filters.radius = true then
    geoFilterLive filters (filters.radius.getD 0) afterSubjects
  else afterSubjects

/-- Deduplication followed by the live-path filter stages: the list whose
non-emptiness decides between returning live results and falling back. -/
noncomputable def liveFiltered (filters : SearchFilters)
    (allResults : List Conference) : List Conference :=
  liveStageFilters filters (deduplicateConferences allResults)

/-- Fallback subject filter (lines 251-255): applied whenever `subjects` is
non-empty; unlike the live path there is no `< 11` exemption. -/
def subjectFilterFallback (filters : SearchFilters) (results : List Conference) :
    List Conference :=
  if 0 < filters.subjects.length then
    results.filter (fun conference => filters.subjects.contains conference.subject)
  else results

/-- Fallback date-range filter (lines 258-272): when both bounds are
present, keep a record iff its `[startDate, endDate]` interval overlaps the
filter window. -/
def dateFilterFallback (filters : SearchFilters) (results : List Conference) :
    List Conference :=
  if ¬filters.startDate.isEmpty ∧ ¬filters.endDate.isEmpty then
    results.filter (fun conference =>
      leStr conference.startDate filters.endDate &&
        leStr filters.startDate conference.endDate)
  else results

/-- JS `filters.radius || 50` (line 290): absent and `0` both yield the
50-mile default. -/
def radiusOrDefault : Option ℚ → ℚ
  | none => 50
  | some r => if r = 0 then 50 else r

/-- Fallback geographic filter (lines 275-300): when the search city
geocodes, records without coordinates are excluded outright (`return
false`); when it does not, city/state substring matching against the raw
location string. -/
noncomputable def geoFilterFallback (filters : SearchFilters)
    (results : List Conference) : List Conference :=
  if ¬filters.location.isEmpty then
    match getCityCoordinates filters.location with
    | some searchCoords =>
      results.filter (fun conference =>
        match conference.location.coordinates with
        | none => false
        | some cc => distLE searchCoords cc (radiusOrDefault filters.radius))
    | none =>
      results.filter (fun conference =>
        strIncludes (lowerStr conference.location.city) (lowerStr filters.location) ||
          strIncludes (lowerStr conference.location.state) (lowerStr filters.location))
  else results

/-- PHASE 3 (lines 242-305): the built-in dataset run through the fallback
branch's own filter stages, sorted by start date. -/
noncomputable def fallbackResults (filters : SearchFilters) : List Conference :=
  sortByStartDate
    (geoFilterFallback filters
      (dateFilterFallback filters (subjectFilterFallback filters mockConferences)))

/-- `ConferenceSearchService.searchConferences` (lines 130-306), given the
concatenation `allResults` of the lists returned by the provider adapters
in PHASE 1. -/
noncomputable def searchConferences (filters : SearchFilters)
    (allResults : List Conference) : List Conference :=
  if 0 < allResults.length then
    let results := liveFiltered filters allResults
    if 0 < results.length then sortByStartDate results
    else fallbackResults filters
  else fallbackResults filters

/-! ### Provider adapters (`SerpApiService.ts`, `TicketmasterApiService.ts`) -/

/-- Outcome of the one `fetch` call an adapter performs: the promise
rejects (network error or timeout), or a response arrives carrying its `ok`
flag and status code, whose body either parses (`response.json()`) to a `β`
or is malformed. -/
inductive HttpOutcome (β : Type) where
  | fetchFailed
  | response (ok : Bool) (status : Nat) (parsed : Except Unit β)

/-- JS `o || d` for an optional string: absent and empty are falsy. -/
def jsOrStr (o : Option String) (d : String) : String :=
  match o with
  | some s => if s.isEmpty then d else s
  | none => d

/-- JS truthiness of an optional string field. -/
def truthyOptStr : Option String → Bool
  | some s => !s.isEmpty
  | none => false

/-- JS `o || d` for an optional number: absent and `0` are falsy. -/
def jsOrQ (o : Option ℚ) (d : ℚ) : ℚ :=
  match o with
  | some x => if x = 0 then d else x
  | none => d

/-- `determineSubjectFromQuery` (SerpApiService.ts 35-75). -/
def determineSubjectFromQuery (title description : String) : String :=
  let combined := lowerStr (title ++ " " ++ description)
  if strIncludes combined "tech" || strIncludes combined "ai" ||
     strIncludes combined "software" || strIncludes combined "data" ||
     strIncludes combined "digital" || strIncludes combined "innovation" then "Technology"
  else if strIncludes combined "health" || strIncludes combined "medical" ||
     strIncludes combined "clinical" then "Healthcare"
  else if strIncludes combined "business" || strIncludes combined "entrepreneur" ||
     strIncludes combined "leadership" then "Business"
  else if strIncludes combined "education" || strIncludes combined "learning" ||
     strIncludes combined "academic" then "Education"
  else if strIncludes combined "science" || strIncludes combined "research" ||
     strIncludes combined "scientific" then "Science"
  else if strIncludes combined "marketing" || strIncludes combined "advertising" ||
     strIncludes combined "brand" then "Marketing"
  else if strIncludes combined "finance" || strIncludes combined "fintech" ||
     strIncludes combined "banking" then "Finance"
  else if strIncludes combined "environment" || strIncludes combined "climate" ||
     strIncludes combined "sustainability" then "Environment"
  else if strIncludes combined "design" || strIncludes combined "art" ||
     strIncludes combined "creative" then "Arts & Design"
  else if strIncludes combined "engineering" || strIncludes combined "mechanical" ||
     strIncludes combined "civil" then "Engineering"
  else if strIncludes combined "sport" || strIncludes combined "athletic" ||
     strIncludes combined "fitness" || strIncludes combined "tournament" ||
     strIncludes combined "championship" then "Sports"
  else "Business"

/-- Regex word character `\w`: ASCII letter, digit or underscore. -/
def isWordChar (c : Char) : Bool :=
  (65 ≤ c.toNat ∧ c.toNat ≤ 90) ∨ (97 ≤ c.toNat ∧ c.toNat ≤ 122) ∨
    (48 ≤ c.toNat ∧ c.toNat ≤ 57) ∨ c = '_'

/-- ASCII upper-case letter (the regex class `[A-Z]`). -/
def isUpperAZ (c : Char) : Bool :=
  65 ≤ c.toNat ∧ c.toNat ≤ 90

/-- First match of `/\b([A-Z]{2})\b/`: two consecutive upper-case letters
with word boundaries on both sides.  `prev` is the character before the
current scan position (`none` at the start of the string). -/
def findStateCode (prev : Option Char) : List Char → Option (Char × Char)
  | c1 :: c2 :: rest =>
    if isUpperAZ c1 && isUpperAZ c2 &&
       (match prev with | none => true | some p => !isWordChar p) &&
       (match rest with | [] => true | r :: _ => !isWordChar r) then
      some (c1, c2)
    else findStateCode (some c1) (c2 :: rest)
  | _ => none

/-- JS `split(',')` on a character list (always at least one part). -/
def splitComma : List Char → List (List Char)
  | [] => [[]]
  | c :: cs =>
    if c = ',' then [] :: splitComma cs
    else
      match splitComma cs with
      | [] => [[c]]
      | p :: ps => (c :: p) :: ps

/-- JS `address.join(', ')`. -/
def joinCommaSpace : List String → String
  | [] => ""
  | [s] => s
  | s :: rest => s ++ ", " ++ joinCommaSpace rest

/-- `parseLocation` (SerpApiService.ts 77-103): city, state, country. -/
def parseLocation : Option (List String) → String × String × String
  | none => ("TBD", "", "USA")
  | some address =>
    if address.length = 0 then ("TBD", "", "USA")
    else
      let fullAddress := joinCommaSpace address
      let parts := (splitComma fullAddress.data).map
        (fun p => (⟨trimChars p⟩ : String))
      if 2 ≤ parts.length then
        let lastPart := parts.getLastD ""
        match findStateCode none lastPart.data with
        | some (c1, c2) =>
          let city := parts.getD (parts.length - 2) ""
          ((if city.isEmpty then "TBD" else city), (⟨[c1, c2]⟩ : String), "USA")
        | none => (lastPart, "", "USA")
      else ("TBD", "", "USA")

/-- Test of `/^\d{4}-\d{2}-\d{2}$/`. -/
def isIsoDate (s : String) : Bool :=
  match s.data with
  | [y1, y2, y3, y4, h1, m1, m2, h2, d1, d2] =>
    y1.isDigit && y2.isDigit && y3.isDigit && y4.isDigit && h1 = '-' &&
      m1.isDigit && m2.isDigit && h2 = '-' && d1.isDigit && d2.isDigit
  | _ => false

/-- ASCII letter (the regex class `[A-Za-z]`). -/
def isLetterAZ (c : Char) : Bool :=
  (65 ≤ c.toNat ∧ c.toNat ≤ 90) ∨ (97 ≤ c.toNat ∧ c.toNat ≤ 122)

/-- First match of `/([A-Za-z]+)\s+(\d+)/`: a maximal letter run followed
by whitespace and digits; returns the letter group and the digit group.
Restarting inside a letter run cannot succeed where the full run failed, so
scanning character by character realizes the regex search. -/
def findWordNum : List Char → Option (List Char × List Char)
  | [] => none
  | c :: cs =>
    if isLetterAZ c then
      let ws := (cs.dropWhile isLetterAZ).takeWhile isWs
      let digits := ((cs.dropWhile isLetterAZ).dropWhile isWs).takeWhile Char.isDigit
      if ¬ws.isEmpty ∧ ¬digits.isEmpty then
        some (c :: cs.takeWhile isLetterAZ, digits)
      else findWordNum cs
    else findWordNum cs

/-- The month-name table of `parseDateRange`. -/
def monthMap (m : String) : Option String :=
  if m = "jan" then some "01" else if m = "feb" then some "02"
  else if m = "mar" then some "03" else if m = "apr" then some "04"
  else if m = "may" then some "05" else if m = "jun" then some "06"
  else if m = "jul" then some "07" else if m = "aug" then some "08"
  else if m = "sep" then some "09" else if m = "oct" then some "10"
  else if m = "nov" then some "11" else if m = "dec" then some "12"
  else none

/-- `day.padStart(2, '0')`. -/
def padTwo (digits : List Char) : String :=
  ⟨List.replicate (2 - digits.length) '0' ++ digits⟩

/-- `parseDateRange` (SerpApiService.ts 105-138).  The clock reads
`new Date().toISOString().split('T')[0]` and
`new Date().getFullYear() + 1` are passed in as `today` and `nextYear`. -/
def parseDateRange (today : String) (nextYear : Nat) (sd : Option String) :
    String × String :=
  match sd with
  | some dateStr =>
    if ¬dateStr.isEmpty then
      if isIsoDate dateStr then (dateStr, dateStr)
      else
        match findWordNum dateStr.data with
        | some (word, digits) =>
          match monthMap ⟨(word.map lowerChar).take 3⟩ with
          | some month =>
            let s := toString nextYear ++ "-" ++ month ++ "-" ++ padTwo digits
            (s, s)
          | none => (today, today)
        | none => (today, today)
    else (today, today)
  | none => (today, today)

/-- The fields of a SerpAPI event read by the conversion; `venue.name` and
`ticket_info[0].link` are flattened into `venueName` and `ticketLink`
(`date.when` is never read). -/
structure SerpApiEvent where
  title : String
  start_date : Option String
  address : Option (List String)
  link : Option String
  description : Option String
  venueName : Option String
  ticketLink : Option String

/-- The SerpAPI response body (`search_metadata` is never read). -/
structure SerpApiResponse where
  events_results : Option (List SerpApiEvent)
  error : Option String

/-- `convertSerpApiToConference` (SerpApiService.ts 140-160). -/
def convertSerpApiToConference (today : String) (nextYear : Nat)
    (event : SerpApiEvent) (index : Nat) : Conference :=
  let loc := parseLocation event.address
  let dates := parseDateRange today nextYear event.start_date
  let description := jsOrStr event.description "No description available"
  { id := "serpapi-" ++ toString index,
    title := event.title,
    subject := determineSubjectFromQuery event.title description,
    location := ⟨loc.1, loc.2.1, loc.2.2, none⟩,
    startDate := dates.1, endDate := dates.2,
    description := ⟨description.data.take 300⟩,
    website := some (jsOrStr event.link (jsOrStr event.ticketLink "#")),
    organizer := jsOrStr event.venueName "Event Organizer",
    attendeeCount := none,
    price := none }

/-- `SerpApiService.searchEvents` (lines 162-233).  `env` is the outcome of
the single `fetch`; the entire body after the key check sits inside
`try { ... } catch { return [] }`. -/
def serpSearchEvents (apiKey : String) (env : HttpOutcome SerpApiResponse)
    (today : String) (nextYear : Nat) (_query : String)
    (_location : Option String) (startDate endDate : Option String) :
    List Conference :=
  if apiKey.isEmpty then []
  else
    match env with
    | .fetchFailed => []
    | .response ok _status parsed =>
      if !ok then []
      else
        match parsed with
        | .error _ => []
        | .ok data =>
          if truthyOptStr data.error then []
          else
            match data.events_results with
            | none => []
            | some evs =>
              if evs.length = 0 then []
              else
                let conferences := evs.enum.map
                  (fun p => convertSerpApiToConference today nextYear p.2 p.1)
                if truthyOptStr startDate ∧ truthyOptStr endDate then
                  conferences.filter (fun conf =>
                    leStr (startDate.getD "") conf.startDate &&
                      leStr conf.startDate (endDate.getD ""))
                else conferences

/-- One Ticketmaster classification entry, with `segment.name` and
`genre.name` flattened. -/
structure TmClassification where
  segment : Option String
  genre : Option String

/-- A Ticketmaster venue; the `parseFloat`-ed latitude/longitude strings
are modelled by their numeric values. -/
structure TmVenue where
  cityName : Option String
  stateCode : Option String
  countryCode : Option String
  latitude : Option ℚ
  longitude : Option ℚ

/-- One Ticketmaster price range entry. -/
structure TmPriceRange where
  currency : Option String
  priceMin : Option ℚ
  priceMax : Option ℚ

/-- The fields of a Ticketmaster event read by the conversion. -/
structure TmEvent where
  id : String
  name : String
  info : Option String
  eventDescription : Option String
  url : String
  startLocalDate : String
  endLocalDate : Option String
  classifications : Option (List TmClassification)
  venues : List TmVenue
  priceRanges : List TmPriceRange

/-- The Ticketmaster response body: `_embedded?.events`. -/
structure TmResponse where
  events : Option (List TmEvent)

/-- `mapClassificationToSubject` (TicketmasterApiService.ts 72-117). -/
def mapClassificationToSubject
    (classifications : Option (List TmClassification)) : String :=
  match classifications with
  | none => "Other"
  | some cls =>
    if cls.length = 0 then "Other"
    else
      let segment := lowerStr ((cls.headD ⟨none, none⟩).segment.getD "")
      let genre := lowerStr ((cls.headD ⟨none, none⟩).genre.getD "")
      let combined := segment ++ " " ++ genre
      if strIncludes combined "tech" || strIncludes combined "science" ||
         strIncludes combined "innovation" || strIncludes combined "digital" then "Technology"
      else if strIncludes combined "business" || strIncludes combined "conference" ||
         strIncludes combined "professional" || strIncludes combined "corporate" then "Business"
      else if strIncludes combined "education" || strIncludes combined "learning" ||
         strIncludes combined "academic" || strIncludes combined "workshop" then "Education"
      else if strIncludes combined "art" || strIncludes combined "design" ||
         strIncludes combined "creative" || strIncludes combined "cultural" then "Arts & Design"
      else if strIncludes combined "health" || strIncludes combined "medical" ||
         strIncludes combined "wellness" then "Healthcare"
      else if strIncludes segment "sports" then "Other"
      else if strIncludes segment "music" then "Other"
      else "Business"

/-- `convertTicketmasterToConference` (TicketmasterApiService.ts 119-151). -/
def convertTicketmasterToConference (event : TmEvent) : Conference :=
  let venue := event.venues.head?
  let priceRange := event.priceRanges.head?
  { id := event.id,
    title := event.name,
    subject := mapClassificationToSubject event.classifications,
    location :=
      { city := jsOrStr (venue.bind (·.cityName)) "TBD",
        state := jsOrStr (venue.bind (·.stateCode)) "",
        country := jsOrStr (venue.bind (·.countryCode)) "US",
        coordinates :=
          match venue.bind (·.latitude), venue.bind (·.longitude) with
          | some la, some lo => some ⟨la, lo⟩
          | _, _ => none },
    startDate := event.startLocalDate,
    endDate := jsOrStr event.endLocalDate event.startLocalDate,
    description := jsOrStr event.info
      (jsOrStr event.eventDescription "No description available"),
    website := some event.url,
    organizer := "Ticketmaster Event",
    attendeeCount := none,
    price :=
      match priceRange with
      | some pr =>
        some ⟨jsOrQ pr.priceMin 0, jsOrQ pr.priceMax (jsOrQ pr.priceMin 0),
              jsOrStr pr.currency "USD"⟩
      | none => none }

/-- `TicketmasterApiService.searchEvents` (lines 153-215); the query,
location and date parameters only shape the outgoing request. -/
def tmSearchEvents (apiKey : String) (env : HttpOutcome TmResponse)
    (_query : String) (_location : Option String)
    (_startDate _endDate : Option String) : List Conference :=
  if apiKey.isEmpty then []
  else
    match env with
    | .fetchFailed => []
    | .response ok _status parsed =>
      if !ok then []
      else
        match parsed with
        | .error _ => []
        | .ok data =>
          match data.events with
          | none => []
          | some evs => evs.map convertTicketmasterToConference

/-- An abnormal fetch outcome: network failure, non-success HTTP status, or
a body that fails to parse. -/
def isErrOutcome {β : Type} : HttpOutcome β → Bool
  | .fetchFailed => true
  | .response ok _ parsed =>
    !ok || (match parsed with | .error _ => true | .ok _ => false)

/-! ### Specification-side description of deduplication -/

/-- Collision resolution applied left to right: the incoming record
replaces the stored one only when its completeness score is strictly
higher. -/
def keepBetter (a b : Conference) : Conference :=
  if calculateCompletenessScore a < calculateCompletenessScore b then b else a

/-- The surviving record among all input records with dedup key `key`. -/
def winnerOf (key : String) (cs : List Conference) : Option Conference :=
  match cs.filter (fun c => dedupKey c == key) with
  | [] => none
  | c :: rest => some (rest.foldl keepBetter c)

/-- Worker for `firstOccurrences`: `seen` holds the keys already emitted. -/
def firstOccAux (seen : List String) : List String → List String
  | [] => []
  | k :: ks =>
    if k ∈ seen then firstOccAux seen ks else k :: firstOccAux (k :: seen) ks

/-- Keys in order of first occurrence, each kept once. -/
def firstOccurrences (l : List String) : List String :=
  firstOccAux [] l

/-- Specification of the `seen` map after the deduplication loop: one entry
per first-seen key, holding the surviving record for that key. -/
def dedupAssoc (cs : List Conference) : List (String × Conference) :=
  (firstOccurrences (cs.map dedupKey)).filterMap
    (fun k => (winnerOf k cs).map (fun w => (k, w)))

/-- The list that `searchConferences` sorts immediately before returning:
the live filtered aggregate when that is what is returned, the filtered
fallback dataset otherwise. -/
noncomputable def preSortOutput (filters : SearchFilters)
    (allResults : List Conference) : List Conference :=
  if 0 < allResults.length ∧ 0 < (liveFiltered filters allResults).length then
    liveFiltered filters allResults
  else
    geoFilterFallback filters
      (dateFilterFallback filters (subjectFilterFallback filters mockConferences))

/-! ### Concrete records used in witnesses and counterexamples -/

/-- A provider record dated outside any 2024 filter window. -/
def lateConf : Conference :=
  { id := "x1", title := "Tech Summit", subject := "Technology",
    location := ⟨"Springfield", "IL", "USA", none⟩,
    startDate := "2025-06-15", endDate := "2025-06-16",
    description := "", website := none, organizer := "Org",
    attendeeCount := none, price := none }

/-- A coordinate-less record located in Boston. -/
def bostonNoCoords : Conference :=
  { id := "b1", title := "Boston Health Forum", subject := "Healthcare",
    location := ⟨"Boston", "MA", "USA", none⟩,
    startDate := "2025-03-01", endDate := "2025-03-02",
    description := "", website := none, organizer := "Org",
    attendeeCount := none, price := none }

/-- Two records with distinct dedup keys and equal start dates. -/
def confA : Conference :=
  { id := "a", title := "Alpha Conf", subject := "Business",
    location := ⟨"X", "", "USA", none⟩,
    startDate := "2025-05-01", endDate := "2025-05-02",
    description := "", website := none, organizer := "Org",
    attendeeCount := none, price := none }

/-- Companion of `confA`: same dates, different title. -/
def confB : Conference :=
  { confA with id := "b", title := "Beta Conf" }

/-! ## Theorems -/

/-- C7: for every input, a provider adapter maps every abnormal fetch
outcome (network failure, non-success HTTP status, malformed body) to the
empty result list instead of raising; this holds for both the SerpAPI and
the Ticketmaster adapter. -/
theorem adapters_swallow_errors (keyS keyT today : String) (nextYear : Nat)
    (q : String) (loc sd ed : Option String)
    (envS : HttpOutcome SerpApiResponse) (envT : HttpOutcome TmResponse)
    (hS : isErrOutcome envS = true) (hT : isErrOutcome envT = true) :
    serpSearchEvents keyS envS today nextYear q loc sd ed = [] ∧
      tmSearchEvents keyT envT q loc sd ed = [] := by
  constructor
  · cases envS with
    | fetchFailed => simp [serpSearchEvents]
    | response ok status parsed =>
      cases ok with
      | false => simp [serpSearchEvents]
      | true =>
        cases parsed with
        | error e => simp [serpSearchEvents]
        | ok data => simp [isErrOutcome] at hS
  · cases envT with
    | fetchFailed => simp [tmSearchEvents]
    | response ok status parsed =>
      cases ok with
      | false => simp [tmSearchEvents]
      | true =>
        cases parsed with
        | error e => simp [tmSearchEvents]
        | ok data => simp [isErrOutcome] at hT

/-- Witness for C7 at a concrete input: a failed fetch on both adapters. -/
theorem adapters_swallow_errors_witness :
    serpSearchEvents "key" HttpOutcome.fetchFailed "2024-01-01" 2025 "conference"
        none none none = [] ∧
      tmSearchEvents "key" HttpOutcome.fetchFailed "conference" none none none = [] :=
  adapters_swallow_errors "key" "key" "2024-01-01" 2025 "conference"
    none none none HttpOutcome.fetchFailed HttpOutcome.fetchFailed rfl rfl

/-- C8: the Haversine distance is symmetric in its two coordinate pairs. -/
theorem calculateDistance_symm (lat1 lng1 lat2 lng2 : ℝ) :
    calculateDistance lat1 lng1 lat2 lng2 = calculateDistance lat2 lng2 lat1 lng1 := by
  have key : ∀ a b c d : ℝ,
      Real.sin ((c - a) * (Real.pi / 180) / 2) * Real.sin ((c - a) * (Real.pi / 180) / 2) +
        Real.cos (a * (Real.pi / 180)) * Real.cos (c * (Real.pi / 180)) *
          Real.sin ((d - b) * (Real.pi / 180) / 2) * Real.sin ((d - b) * (Real.pi / 180) / 2) =
      Real.sin ((a - c) * (Real.pi / 180) / 2) * Real.sin ((a - c) * (Real.pi / 180) / 2) +
        Real.cos (c * (Real.pi / 180)) * Real.cos (a * (Real.pi / 180)) *
          Real.sin ((b - d) * (Real.pi / 180) / 2) * Real.sin ((b - d) * (Real.pi / 180) / 2) := by
    intro a b c d
    have h1 : (a - c) * (Real.pi / 180) / 2 = -((c - a) * (Real.pi / 180) / 2) := by ring
    have h2 : (b - d) * (Real.pi / 180) / 2 = -((d - b) * (Real.pi / 180) / 2) := by ring
    rw [h1, h2, Real.sin_neg, Real.sin_neg]
    ring
  unfold calculateDistance
  rw [key lat1 lng1 lat2 lng2]

/-- C9: the completeness score counts the attendee contribution only for a
present, nonzero attendee count; `attendeeCount = 0` scores exactly like an
absent attendee count, while a nonzero count adds exactly one point. -/
theorem completeness_attendee_zero (c : Conference) (n : ℕ) :
    calculateCompletenessScore { c with attendeeCount := some 0 } =
      calculateCompletenessScore { c with attendeeCount := none } ∧
    (n ≠ 0 → calculateCompletenessScore { c with attendeeCount := some n } =
      calculateCompletenessScore { c with attendeeCount := none } + 1) := by
  refine ⟨rfl, fun hn => ?_⟩
  simp only [calculateCompletenessScore]
  rw [if_pos hn]
  omega

/-- Witness for C9 at a concrete record and count. -/
theorem completeness_attendee_zero_witness :
    (5 : ℕ) ≠ 0 ∧
      calculateCompletenessScore { confA with attendeeCount := some 5 } =
        calculateCompletenessScore { confA with attendeeCount := none } + 1 :=
  ⟨by decide, (completeness_attendee_zero confA 5).2 (by decide)⟩

/-- An empty location string never geocodes. -/
theorem location_ne_empty_of_geocode {s : String} {sc : Coordinates}
    (h : getCityCoordinates s = some sc) : s.isEmpty = false := by
  cases hs : s.isEmpty
  · rfl
  · rw [String.isEmpty_iff] at hs
    rw [hs] at h
    have hnone : getCityCoordinates "" = none := rfl
    rw [hnone] at h
    exact Option.noConfusion h

/-- C10: in the fallback branch, when the search location geocodes and no
radius was given, records are still distance-filtered, using the 50-mile
default: a record is kept iff it has coordinates within 50 miles, and the
stage coincides with the same stage at an explicit 50-mile radius. -/
theorem fallback_geo_default_radius (filters : SearchFilters)
    (results : List Conference) (sc : Coordinates) (hr : filters.radius = none)
    (hc : getCityCoordinates filters.location = some sc) :
    (∀ c, c ∈ geoFilterFallback filters results ↔
      c ∈ results ∧ ∃ cc, c.location.coordinates = some cc ∧ distLE sc cc 50 = true) ∧
    geoFilterFallback filters results =
      geoFilterFallback { filters with radius := some 50 } results := by
  have hloc := location_ne_empty_of_geocode hc
  constructor
  · intro c
    simp only [geoFilterFallback, hloc, hc, hr, radiusOrDefault,
      Bool.false_eq_true, not_false_eq_true, if_true, List.mem_filter]
    rcases hcc : c.location.coordinates with _ | cc
    · simp [hcc]
    · simp [hcc]
  · simp only [geoFilterFallback, hloc, hc, hr, radiusOrDefault]
    norm_num

/-- Witness for C10: with location `Boston` and no radius, a record without
coordinates is distance-excluded by the fallback geographic stage. -/
theorem fallback_geo_default_radius_witness :
    bostonNoCoords ∉ geoFilterFallback ⟨[], "Boston", "", "", none⟩ [bostonNoCoords] := by
  intro hmem
  obtain ⟨-, cc, hcc, -⟩ :=
    ((fallback_geo_default_radius ⟨[], "Boston", "", "", none⟩ [bostonNoCoords]
      ⟨42.3601, -71.0589⟩ rfl rfl).1 bostonNoCoords).mp hmem
  simp [bostonNoCoords] at hcc

/-- C1 fails as stated: with both filter bounds present, the pipeline
returns a live-provider record whose date interval does not overlap the
filter window — the live-provider branch performs no date filtering. -/
theorem date_filter_counterexample :
    searchConferences ⟨[], "", "2024-01-01", "2024-01-31", none⟩ [lateConf] = [lateConf] ∧
    ("2024-01-01" : String).isEmpty = false ∧ ("2024-01-31" : String).isEmpty = false ∧
    ¬(leStr lateConf.startDate "2024-01-31" = true ∧
      leStr "2024-01-01" lateConf.endDate = true) :=
  ⟨rfl, rfl, rfl, by decide⟩

/-- C1 amended: the overlap-based date filtering happens only in the
fallback branch.  There, with both bounds present, a record is kept iff its
interval overlaps the filter window, and with either bound absent the stage
is the identity; the live-provider filter stages (and hence the returned
live results) do not depend on the filter dates at all. -/
theorem date_filter_fallback_only (filters : SearchFilters)
    (results : List Conference) :
    (filters.startDate.isEmpty = false → filters.endDate.isEmpty = false →
      ∀ c, c ∈ dateFilterFallback filters results ↔
        c ∈ results ∧ leStr c.startDate filters.endDate = true ∧
          leStr filters.startDate c.endDate = true) ∧
    (filters.startDate.isEmpty = true ∨ filters.endDate.isEmpty = true →
      dateFilterFallback filters results = results) ∧
    (∀ sd ed, liveFiltered { filters with startDate := sd, endDate := ed } results =
      liveFiltered filters results) ∧
    (0 < results.length → 0 < (liveFiltered filters results).length →
      ∀ sd ed, searchConferences { filters with startDate := sd, endDate := ed } results =
        searchConferences filters results) := by
  refine ⟨fun h1 h2 c => ?_, fun h => ?_, fun sd ed => rfl, fun hlen hlive sd ed => ?_⟩
  · simp only [dateFilterFallback, h1, h2, Bool.false_eq_true, not_false_eq_true,
      and_self, if_true, List.mem_filter, Bool.and_eq_true]
  · have hcond : ¬(¬filters.startDate.isEmpty = true ∧ ¬filters.endDate.isEmpty = true) := by
      rcases h with h | h <;> simp [h]
    simp only [dateFilterFallback, if_neg hcond]
  · have heq : liveFiltered { filters with startDate := sd, endDate := ed } results =
        liveFiltered filters results := rfl
    simp only [searchConferences, heq, if_pos hlen, if_pos hlive]

/-- Witness for C1's amended statement at concrete inputs: a record inside
the window passes the fallback date stage, and the live branch output is
unchanged by altering the filter dates. -/
theorem date_filter_fallback_only_witness :
    (lateConf ∈ dateFilterFallback ⟨[], "", "2025-01-01", "2025-12-31", none⟩ [lateConf]) ∧
    searchConferences ⟨[], "", "2024-01-01", "2024-01-31", none⟩ [lateConf] =
      searchConferences ⟨[], "", "2025-01-01", "2025-12-31", none⟩ [lateConf] :=
  ⟨((date_filter_fallback_only ⟨[], "", "2025-01-01", "2025-12-31", none⟩ [lateConf]).1
      rfl rfl lateConf).mpr ⟨List.mem_singleton.mpr rfl, by decide, by decide⟩,
    (date_filter_fallback_only ⟨[], "", "2025-01-01", "2025-12-31", none⟩ [lateConf]).2.2.2
      (by decide) (by decide) "2024-01-01" "2024-01-31"⟩

/-- C2 fails as stated: the filter stages applied to the fallback dataset
are not the same functions as the live-path stages.  With an empty
aggregate and a date window excluding every fallback record, the pipeline
returns the empty list, while the live-path stages (which have no date
stage) applied to the fallback dataset and sorted return all 12 records. -/
theorem fallback_same_stages_counterexample :
    searchConferences ⟨[], "", "2030-01-01", "2030-12-31", none⟩ [] ≠
      sortByStartDate
        (liveStageFilters ⟨[], "", "2030-01-01", "2030-12-31", none⟩ mockConferences) := by
  intro h
  have h0 : (searchConferences ⟨[], "", "2030-01-01", "2030-12-31", none⟩ []).length = 0 := rfl
  have h12 : (sortByStartDate
      (liveStageFilters ⟨[], "", "2030-01-01", "2030-12-31", none⟩ mockConferences)).length = 12 := rfl
  rw [h, h12] at h0
  exact absurd h0 (by decide)

/-- C2 amended: whenever the deduplicated aggregate, after the live-path
filter stages, is empty (in particular when every adapter returned an empty
list), the output is the fallback dataset run through the fallback branch's
own filter stages — subject (applied for any non-empty selection), date
overlap, geographic with 50-mile default radius — sorted by start date.
These stages are the fallback branch's, not the live path's. -/
theorem fallback_trigger (filters : SearchFilters) (allResults : List Conference)
    (h : liveFiltered filters allResults = []) :
    searchConferences filters allResults = fallbackResults filters ∧
    fallbackResults filters = sortByStartDate (geoFilterFallback filters
      (dateFilterFallback filters (subjectFilterFallback filters mockConferences))) := by
  refine ⟨?_, rfl⟩
  by_cases hlen : 0 < allResults.length
  · simp only [searchConferences, if_pos hlen, h]
    simp
  · simp only [searchConferences, if_neg hlen]

/-- Witness for C2's amended statement: every adapter returned an empty
list, and the output is the filtered, sorted fallback dataset. -/
theorem fallback_trigger_witness :
    searchConferences ⟨[], "", "2030-01-01", "2030-12-31", none⟩ [] =
      fallbackResults ⟨[], "", "2030-01-01", "2030-12-31", none⟩ :=
  (fallback_trigger ⟨[], "", "2030-01-01", "2030-12-31", none⟩ [] rfl).1

/-- C3 fails as stated: with a geocoding search location, a record without
coordinates whose city text-matches the search location is kept by the
live-path geographic filter but unconditionally excluded by the fallback
branch's geographic filter — the fallback path does not preserve the
text-matching tier. -/
theorem text_tier_counterexample :
    (getCityCoordinates "Boston, MA").isSome = true ∧
    bostonNoCoords.location.coordinates = none ∧
    textMatchLive ⟨[], "Boston, MA", "", "", some 50⟩ bostonNoCoords = true ∧
    geoFilterLive ⟨[], "Boston, MA", "", "", some 50⟩ 50 [bostonNoCoords] = [bostonNoCoords] ∧
    geoFilterFallback ⟨[], "Boston, MA", "", "", some 50⟩ [bostonNoCoords] = [] :=
  ⟨rfl, rfl, by decide, rfl, rfl⟩

/-- C3 amended: when the search location geocodes, the live-provider
geographic filter judges every record lacking coordinates by bidirectional
substring text matching, but the fallback branch's geographic filter
excludes every such record unconditionally. -/
theorem geo_two_tier (filters : SearchFilters) (r : ℚ) (results : List Conference)
    (sc : Coordinates) (hc : getCityCoordinates filters.location = some sc) :
    (∀ c, c.location.coordinates = none →
      (c ∈ geoFilterLive filters r results ↔
        c ∈ results ∧ textMatchLive filters c = true)) ∧
    (∀ c, c.location.coordinates = none →
      c ∉ geoFilterFallback filters results) := by
  have hloc := location_ne_empty_of_geocode hc
  constructor
  · intro c hcc
    simp only [geoFilterLive, hc, List.mem_filter, hcc]
  · intro c hcc hmem
    simp only [geoFilterFallback, hloc, Bool.false_eq_true, not_false_eq_true,
      if_true, hc, List.mem_filter, hcc] at hmem
    exact absurd hmem.2 (by simp)

/-- Witness for C3's amended statement: a coordinate-less Boston record is
text-matched into the live geographic filter's output and excluded by the
fallback geographic filter. -/
theorem geo_two_tier_witness :
    bostonNoCoords ∈ geoFilterLive ⟨[], "Boston, MA", "", "", some 50⟩ 50 [bostonNoCoords] ∧
    bostonNoCoords ∉ geoFilterFallback ⟨[], "Boston, MA", "", "", some 50⟩ [bostonNoCoords] :=
  ⟨((geo_two_tier ⟨[], "Boston, MA", "", "", some 50⟩ 50 [bostonNoCoords]
        ⟨42.3601, -71.0589⟩ rfl).1 bostonNoCoords rfl).mpr
      ⟨List.mem_singleton.mpr rfl, by decide⟩,
    (geo_two_tier ⟨[], "Boston, MA", "", "", some 50⟩ 50 [bostonNoCoords]
        ⟨42.3601, -71.0589⟩ rfl).2 bostonNoCoords rfl⟩

/-- C6: whatever the source of the results, the pipeline output is the
stable sort by `startDate` of the list produced by the preceding filter
stages: the output equals that sort, it is pairwise ordered by `startDate`,
and any pair in comparator order — in particular any pair with equal start
dates, in input order — keeps its relative order in the output. -/
theorem output_sorted_stable (filters : SearchFilters) (allResults : List Conference) :
    searchConferences filters allResults = sortByStartDate (preSortOutput filters allResults) ∧
    List.Pairwise byStartDate (searchConferences filters allResults) ∧
    (∀ a b, List.Sublist [a, b] (preSortOutput filters allResults) → byStartDate a b →
      List.Sublist [a, b] (searchConferences filters allResults)) := by
  have hdecomp : searchConferences filters allResults =
      sortByStartDate (preSortOutput filters allResults) := by
    by_cases h1 : 0 < allResults.length
    · by_cases h2 : 0 < (liveFiltered filters allResults).length
      · simp only [searchConferences, preSortOutput]
        rw [if_pos h1, if_pos h2, if_pos ⟨h1, h2⟩]
      · simp only [searchConferences, preSortOutput, fallbackResults]
        rw [if_pos h1, if_neg h2, if_neg (fun hand => h2 hand.2)]
    · simp only [searchConferences, preSortOutput, fallbackResults]
      rw [if_neg h1, if_neg (fun hand => h1 hand.1)]
  refine ⟨hdecomp, ?_, fun a b hab hle => ?_⟩
  · rw [hdecomp]
    exact List.sorted_insertionSort byStartDate _
  · rw [hdecomp]
    exact List.pair_sublist_insertionSort hle hab

/-- Witness for C6: two records with equal start dates survive in input
order in the sorted output. -/
theorem output_sorted_stable_witness :
    List.Sublist [confA, confB] (searchConferences ⟨[], "", "", "", none⟩ [confA, confB]) :=
  (output_sorted_stable ⟨[], "", "", "", none⟩ [confA, confB]).2.2 confA confB
    (show List.Sublist [confA, confB] [confA, confB] from List.Sublist.refl _) (by decide)

/-- Every fallback record's subject belongs to the 11-category list. -/
theorem mock_subjects : ∀ m ∈ mockConferences, m.subject ∈ TOP_SUBJECTS := by
  decide

/-- The live-path stages treat any subject list that skips filtering like
the empty one. -/
theorem liveStageFilters_subjects_swap (f : SearchFilters) (s : List String)
    (h : ¬(0 < s.length ∧ s.length < 11)) (l : List Conference) :
    liveStageFilters { f with subjects := s } l =
      liveStageFilters { f with subjects := [] } l := by
  have e1 : subjectFilterLive { f with subjects := s } l = l := by
    simp only [subjectFilterLive]
    exact if_neg h
  have e2 : subjectFilterLive { f with subjects := [] } l = l := by
    simp [subjectFilterLive]
  simp only [liveStageFilters, e1, e2]
  rfl

/-- On the fallback dataset, filtering by a subject list containing every
category keeps every record, so the fallback output matches the
unrestricted one. -/
theorem fallback_subjects_full (f : SearchFilters) (s : List String)
    (hlen : s.length = 11) (hmem : ∀ x, x ∈ s ↔ x ∈ TOP_SUBJECTS) :
    fallbackResults { f with subjects := s } =
      fallbackResults { f with subjects := [] } := by
  have hsub : subjectFilterFallback { f with subjects := s } mockConferences =
      mockConferences := by
    simp only [subjectFilterFallback]
    rw [if_pos (show 0 < s.length by omega)]
    apply List.filter_eq_self.mpr
    intro m hm
    exact List.elem_iff.mpr ((hmem _).mpr (mock_subjects m hm))
  have hsub2 : subjectFilterFallback { f with subjects := [] } mockConferences =
      mockConferences := by
    simp [subjectFilterFallback]
  simp only [fallbackResults, hsub, hsub2]
  rfl

/-- C4: running the pipeline with the subject filter equal to the full
11-category list produces exactly the same output as running it with an
empty subject list, for every filter and every aggregated input: neither
run applies any effective subject restriction. -/
theorem subject_full_equals_empty (filters : SearchFilters)
    (allResults : List Conference) (s : List String) (hlen : s.length = 11)
    (hmem : ∀ x, x ∈ s ↔ x ∈ TOP_SUBJECTS) :
    searchConferences { filters with subjects := s } allResults =
      searchConferences { filters with subjects := [] } allResults := by
  have hlive : liveFiltered { filters with subjects := s } allResults =
      liveFiltered { filters with subjects := [] } allResults := by
    unfold liveFiltered
    exact liveStageFilters_subjects_swap filters s (by rw [hlen]; omega) _
  have hfb := fallback_subjects_full filters s hlen hmem
  simp only [searchConferences, hlive, hfb]

/-- Witness for C4: the full `TOP_SUBJECTS` list and the empty list give
the same output on an empty aggregate. -/
theorem subject_full_equals_empty_witness :
    searchConferences ⟨TOP_SUBJECTS, "", "", "", none⟩ [] =
      searchConferences ⟨[], "", "", "", none⟩ [] :=
  subject_full_equals_empty ⟨[], "", "", "", none⟩ [] TOP_SUBJECTS rfl
    (fun _ => Iff.rfl)

/-! ### Lemmas for the deduplication characterization (C5) -/

theorem mem_firstOccAux :
    ∀ (l seen : List String) (k : String),
      k ∈ firstOccAux seen l ↔ k ∈ l ∧ k ∉ seen := by
  intro l
  induction l with
  | nil => simp [firstOccAux]
  | cons x xs ih =>
    intro seen k
    simp only [firstOccAux]
    by_cases hx : x ∈ seen
    · rw [if_pos hx, ih]
      constructor
      · rintro ⟨h1, h2⟩
        exact ⟨List.mem_cons_of_mem _ h1, h2⟩
      · rintro ⟨h1, h2⟩
        rcases List.mem_cons.mp h1 with rfl | h1
        · exact absurd hx h2
        · exact ⟨h1, h2⟩
    · rw [if_neg hx]
      constructor
      · intro hmem
        rcases List.mem_cons.mp hmem with rfl | hmem
        · exact ⟨List.mem_cons_self _ _, hx⟩
        · obtain ⟨h1, h2⟩ := (ih (x :: seen) k).mp hmem
          exact ⟨List.mem_cons_of_mem _ h1,
            fun hk => h2 (List.mem_cons_of_mem _ hk)⟩
      · rintro ⟨h1, h2⟩
        rcases List.mem_cons.mp h1 with rfl | h1
        · exact List.mem_cons_self _ _
        · by_cases hkx : k = x
          · exact hkx ▸ List.mem_cons_self _ _
          · refine List.mem_cons_of_mem _ ((ih (x :: seen) k).mpr ⟨h1, fun hk => ?_⟩)
            rcases List.mem_cons.mp hk with h' | h'
            · exact hkx h'
            · exact h2 h'

theorem nodup_firstOccAux : ∀ (l seen : List String), (firstOccAux seen l).Nodup := by
  intro l
  induction l with
  | nil => intro seen; simp [firstOccAux]
  | cons x xs ih =>
    intro seen
    simp only [firstOccAux]
    by_cases hx : x ∈ seen
    · rw [if_pos hx]; exact ih seen
    · rw [if_neg hx]
      refine List.nodup_cons.mpr ⟨fun hmem => ?_, ih (x :: seen)⟩
      exact ((mem_firstOccAux xs (x :: seen) x).mp hmem).2 (List.mem_cons_self _ _)

theorem firstOccAux_append_singleton :
    ∀ (l seen : List String) (k : String),
      firstOccAux seen (l ++ [k]) =
        firstOccAux seen l ++ (if k ∈ seen ∨ k ∈ l then [] else [k]) := by
  intro l
  induction l with
  | nil =>
    intro seen k
    by_cases hk : k ∈ seen <;> simp [firstOccAux, hk]
  | cons x xs ih =>
    intro seen k
    simp only [List.cons_append, firstOccAux, List.append_eq]
    by_cases hx : x ∈ seen
    · rw [if_pos hx, if_pos hx, ih]
      have hiff : (k ∈ seen ∨ k ∈ xs) ↔ (k ∈ seen ∨ k ∈ x :: xs) := by
        constructor
        · rintro (h | h)
          · exact Or.inl h
          · exact Or.inr (List.mem_cons_of_mem _ h)
        · rintro (h | h)
          · exact Or.inl h
          · rcases List.mem_cons.mp h with rfl | h
            · exact Or.inl hx
            · exact Or.inr h
      rw [if_congr hiff rfl rfl]
    · rw [if_neg hx, if_neg hx, ih, List.cons_append]
      congr 1
      have hiff : (k ∈ x :: seen ∨ k ∈ xs) ↔ (k ∈ seen ∨ k ∈ x :: xs) := by
        simp only [List.mem_cons]
        tauto
      rw [if_congr hiff rfl rfl]

theorem findVal_filterMap (W : String → Option Conference) :
    ∀ (KS : List String) (k : String), (∀ k' ∈ KS, (W k').isSome) →
      findVal k (KS.filterMap (fun k' => (W k').map (fun w => (k', w)))) =
        if k ∈ KS then W k else none := by
  intro KS
  induction KS with
  | nil => intro k _; simp [findVal]
  | cons k' KS' ih =>
    intro k h
    obtain ⟨w, hw⟩ := Option.isSome_iff_exists.mp (h k' (List.mem_cons_self _ _))
    rw [List.filterMap_cons_some (by rw [hw]; rfl)]
    simp only [findVal]
    by_cases hk : k' = k
    · subst hk
      rw [if_pos rfl, if_pos (List.mem_cons_self _ _), hw]
    · rw [if_neg hk, ih k (fun x hx => h x (List.mem_cons_of_mem _ hx))]
      by_cases hk2 : k ∈ KS'
      · rw [if_pos hk2, if_pos (List.mem_cons_of_mem _ hk2)]
      · rw [if_neg hk2, if_neg (fun hmem => by
          rcases List.mem_cons.mp hmem with h' | h'
          · exact hk h'.symm
          · exact hk2 h')]

theorem setVal_filterMap (W : String → Option Conference) (k : String) (v : Conference) :
    ∀ (KS : List String), (∀ k' ∈ KS, (W k').isSome) → KS.Nodup →
      setVal k v (KS.filterMap (fun k' => (W k').map (fun w => (k', w)))) =
        KS.filterMap (fun k' =>
          if k' = k then (W k').map (fun _ => (k, v))
          else (W k').map (fun w => (k', w))) := by
  intro KS
  induction KS with
  | nil => intro _ _; rfl
  | cons k' KS' ih =>
    intro h hnd
    obtain ⟨w, hw⟩ := Option.isSome_iff_exists.mp (h k' (List.mem_cons_self _ _))
    rw [List.filterMap_cons_some (by rw [hw]; rfl)]
    simp only [setVal]
    by_cases hk : k' = k
    · subst hk
      rw [if_pos rfl, List.filterMap_cons_some (by rw [if_pos rfl, hw]; rfl)]
      congr 1
      refine (List.filterMap_congr ?_).symm
      intro x hx
      have hxk : x ≠ k' := fun he => (List.nodup_cons.mp hnd).1 (he ▸ hx)
      rw [if_neg hxk]
    · rw [if_neg hk, List.filterMap_cons_some (by rw [if_neg hk, hw]; rfl)]
      congr 1
      exact ih (fun x hx => h x (List.mem_cons_of_mem _ hx)) (List.nodup_cons.mp hnd).2

theorem winnerOf_isSome_of_mem {k : String} {cs : List Conference}
    (h : k ∈ cs.map dedupKey) : (winnerOf k cs).isSome := by
  obtain ⟨c, hc, rfl⟩ := List.mem_map.mp h
  simp only [winnerOf]
  cases hf : cs.filter (fun c' => dedupKey c' == dedupKey c) with
  | nil =>
    have := List.filter_eq_nil_iff.mp hf c hc
    simp at this
  | cons x xs => simp

theorem winnerOf_eq_none {k : String} {cs : List Conference}
    (h : k ∉ cs.map dedupKey) : winnerOf k cs = none := by
  simp only [winnerOf]
  cases hf : cs.filter (fun c' => dedupKey c' == k) with
  | nil => rfl
  | cons x xs =>
    have hx : x ∈ cs.filter (fun c' => dedupKey c' == k) :=
      hf ▸ List.mem_cons_self _ _
    obtain ⟨hx1, hx2⟩ := List.mem_filter.mp hx
    exact absurd (List.mem_map.mpr ⟨x, hx1, beq_iff_eq.mp hx2⟩) h

theorem winnerOf_append_ne {k : String} {cs : List Conference} {c : Conference}
    (h : dedupKey c ≠ k) : winnerOf k (cs ++ [c]) = winnerOf k cs := by
  simp only [winnerOf, List.filter_append]
  rw [show List.filter (fun c' => dedupKey c' == k) [c] = [] from by simp [h],
    List.append_nil]

theorem winnerOf_append_self_none {cs : List Conference} {c : Conference}
    (h : winnerOf (dedupKey c) cs = none) :
    winnerOf (dedupKey c) (cs ++ [c]) = some c := by
  simp only [winnerOf, List.filter_append] at h ⊢
  cases hf : cs.filter (fun c' => dedupKey c' == dedupKey c) with
  | cons x xs =>
    rw [hf] at h
    exact Option.noConfusion h
  | nil => simp

theorem winnerOf_append_some {cs : List Conference} {c w : Conference}
    (h : winnerOf (dedupKey c) cs = some w) :
    winnerOf (dedupKey c) (cs ++ [c]) = some (keepBetter w c) := by
  simp only [winnerOf, List.filter_append] at h ⊢
  cases hf : cs.filter (fun c' => dedupKey c' == dedupKey c) with
  | nil =>
    rw [hf] at h
    exact Option.noConfusion h
  | cons x xs =>
    rw [hf] at h
    have hw : xs.foldl keepBetter x = w := Option.some.inj h
    simp [List.foldl_append, hw]

theorem foldl_dedupStep_eq (cs : List Conference) :
    cs.foldl dedupStep [] = dedupAssoc cs := by
  induction cs using List.reverseRecOn with
  | nil => rfl
  | append_singleton cs c ih =>
    rw [List.foldl_append, List.foldl_cons, List.foldl_nil, ih]
    have hWsome : ∀ k' ∈ firstOccurrences (cs.map dedupKey), (winnerOf k' cs).isSome :=
      fun k' h => winnerOf_isSome_of_mem ((mem_firstOccAux _ _ _).mp h).1
    have hfind : findVal (dedupKey c) (dedupAssoc cs) =
        if dedupKey c ∈ firstOccurrences (cs.map dedupKey) then
          winnerOf (dedupKey c) cs else none :=
      findVal_filterMap _ _ _ hWsome
    have hK' : firstOccurrences ((cs ++ [c]).map dedupKey) =
        firstOccurrences (cs.map dedupKey) ++
          (if dedupKey c ∈ cs.map dedupKey then [] else [dedupKey c]) := by
      rw [List.map_append, List.map_singleton, firstOccurrences, firstOccurrences,
        firstOccAux_append_singleton]
      congr 1
      apply if_congr _ rfl rfl
      simp
    by_cases hmem : dedupKey c ∈ cs.map dedupKey
    · have hmemK : dedupKey c ∈ firstOccurrences (cs.map dedupKey) :=
        (mem_firstOccAux _ _ _).mpr ⟨hmem, List.not_mem_nil _⟩
      obtain ⟨w, hw⟩ := Option.isSome_iff_exists.mp (winnerOf_isSome_of_mem hmem)
      have hfound : findVal (dedupKey c) (dedupAssoc cs) = some w := by
        rw [hfind, if_pos hmemK, hw]
      have hRHS : dedupAssoc (cs ++ [c]) =
          (firstOccurrences (cs.map dedupKey)).filterMap
            (fun k => (winnerOf k (cs ++ [c])).map (fun v => (k, v))) := by
        rw [dedupAssoc, hK', if_pos hmem, List.append_nil]
      simp only [dedupStep, hfound]
      by_cases hscore : calculateCompletenessScore w < calculateCompletenessScore c
      · rw [if_pos hscore, hRHS, dedupAssoc,
          setVal_filterMap _ _ _ _ hWsome (nodup_firstOccAux _ _)]
        apply List.filterMap_congr
        intro x hx
        by_cases hxk : x = dedupKey c
        · subst hxk
          rw [if_pos rfl, hw, winnerOf_append_some hw]
          rw [show keepBetter w c = c from if_pos hscore]
          rfl
        · rw [if_neg hxk, winnerOf_append_ne (fun he => hxk he.symm)]
      · rw [if_neg hscore, hRHS, dedupAssoc]
        apply List.filterMap_congr
        intro x hx
        by_cases hxk : x = dedupKey c
        · subst hxk
          rw [hw, winnerOf_append_some hw,
            show keepBetter w c = w from if_neg hscore]
        · rw [winnerOf_append_ne (fun he => hxk he.symm)]
    · have hmemK : dedupKey c ∉ firstOccurrences (cs.map dedupKey) :=
        fun h => hmem ((mem_firstOccAux _ _ _).mp h).1
      have hnone : findVal (dedupKey c) (dedupAssoc cs) = none := by
        rw [hfind, if_neg hmemK]
      simp only [dedupStep, hnone]
      have hRHS : dedupAssoc (cs ++ [c]) =
          (firstOccurrences (cs.map dedupKey)).filterMap
              (fun k => (winnerOf k (cs ++ [c])).map (fun v => (k, v))) ++
            List.filterMap (fun k => (winnerOf k (cs ++ [c])).map (fun v => (k, v)))
              [dedupKey c] := by
        rw [dedupAssoc, hK', if_neg hmem, List.filterMap_append]
      rw [hRHS]
      congr 1
      · rw [dedupAssoc]
        apply List.filterMap_congr
        intro x hx
        have hxk : x ≠ dedupKey c := fun he => hmem (he ▸ ((mem_firstOccAux _ _ _).mp hx).1)
        rw [winnerOf_append_ne (fun he => hxk he.symm)]
      · rw [List.filterMap_cons_some
          (by rw [winnerOf_append_self_none (winnerOf_eq_none hmem)]; rfl)]
        rfl

theorem foldl_keepBetter_mem :
    ∀ (rest : List Conference) (c : Conference),
      rest.foldl keepBetter c ∈ c :: rest := by
  intro rest
  induction rest with
  | nil => intro c; exact List.mem_singleton.mpr rfl
  | cons x xs ih =>
    intro c
    rw [List.foldl_cons]
    have hsub : keepBetter c x :: xs ⊆ c :: x :: xs := by
      intro a ha
      rcases List.mem_cons.mp ha with rfl | ha
      · unfold keepBetter
        split
        · exact List.mem_cons_of_mem _ (List.mem_cons_self _ _)
        · exact List.mem_cons_self _ _
      · exact List.mem_cons_of_mem _ (List.mem_cons_of_mem _ ha)
    exact hsub (ih (keepBetter c x))

theorem winnerOf_key {k : String} {cs : List Conference} {w : Conference}
    (h : winnerOf k cs = some w) : dedupKey w = k := by
  unfold winnerOf at h
  cases hf : cs.filter (fun c' => dedupKey c' == k) with
  | nil => rw [hf] at h; exact Option.noConfusion h
  | cons x xs =>
    rw [hf] at h
    have hw : xs.foldl keepBetter x = w := Option.some.inj h
    have hmem : w ∈ cs.filter (fun c' => dedupKey c' == k) :=
      hf ▸ (hw ▸ foldl_keepBetter_mem xs x)
    exact beq_iff_eq.mp (List.mem_filter.mp hmem).2

/-- C5: deduplication keeps exactly one record per distinct dedup key — the
output's key sequence is the first-insertion order of the input's keys,
without duplicates — and the record kept for each key is the left fold of
the replace-only-on-strictly-higher-completeness-score rule over that
key's records, so the higher-scoring record wins every collision and the
earlier-stored record is retained on ties. -/
theorem dedup_characterization (cs : List Conference) :
    deduplicateConferences cs =
      (firstOccurrences (cs.map dedupKey)).filterMap (fun k => winnerOf k cs) ∧
    (deduplicateConferences cs).map dedupKey = firstOccurrences (cs.map dedupKey) ∧
    ((deduplicateConferences cs).map dedupKey).Nodup := by
  have h1 : deduplicateConferences cs =
      (firstOccurrences (cs.map dedupKey)).filterMap (fun k => winnerOf k cs) := by
    unfold deduplicateConferences
    rw [foldl_dedupStep_eq, dedupAssoc, List.map_filterMap]
    apply List.filterMap_congr
    intro k hk
    cases hw : winnerOf k cs <;> simp
  have h2 : (deduplicateConferences cs).map dedupKey =
      firstOccurrences (cs.map dedupKey) := by
    rw [h1, List.map_filterMap]
    have hinv : ∀ k ∈ firstOccurrences (cs.map dedupKey),
        (winnerOf k cs).map dedupKey = some k := by
      intro k hk
      obtain ⟨w, hw⟩ := Option.isSome_iff_exists.mp
        (winnerOf_isSome_of_mem ((mem_firstOccAux _ _ _).mp hk).1)
      rw [hw]
      exact congrArg some (winnerOf_key hw)
    rw [List.filterMap_congr hinv]
    simp
  exact ⟨h1, h2, h2 ▸ nodup_firstOccAux _ _⟩

/-! ### Concrete sanity checks of the embedding -/

example : dedupKey { confA with title := "  Alpha   CONF " } = "alpha conf|2025-05-01" := by
  decide

example : deduplicateConferences [confA, { confA with id := "dup" }] = [confA] := by
  decide

example :
    deduplicateConferences [confA, { confA with id := "dup", attendeeCount := some 3 }] =
      [{ confA with id := "dup", attendeeCount := some 3 }] := by
  decide

example : getCityCoordinates "SAN FRANCISCO, CA" = some ⟨37.7749, -122.4194⟩ := rfl

example :
    sortByStartDate [lateConf, confA, confB] = [confA, confB, lateConf] := by
  decide

end SearchBard
